import Mathlib

/-!
Shallow embedding of the homeserver discovery and authentication-configuration
engine of the matrix-rust-sdk repository
(crates/matrix-sdk/src/authentication/service.rs), together with the one-shot
iterator serializer
(crates/matrix-sdk-crypto/src/file_encryption/iterator_serialize_as_array.rs).

External collaborators (the transport client, `sanitize_server_name`,
`Url::parse`, the login-flow fetch) are modelled as oracle functions gathered
in an `Env` structure; the logic of the service is translated line by line
from the source.  Compile-time feature gates (`experimental-sliding-sync`,
`experimental-oidc`) are modelled as runtime flags / unconditional fields.
-/

/-- Opaque server-name handle (result of `sanitize_server_name`). -/
abbrev ServerName := String

/-- Opaque URL handle (result of `Url::parse`). -/
abbrev Url := String

/-- Opaque transport-client handle. -/
abbrev Client := Nat

/-- Opaque payload of `IdParseError` (the server-name parse cause). -/
abbrev IdParseError := String

/-- Opaque payload of ruma's `DeserializationError`. -/
abbrev DeserializationError := String

/-- Opaque payload of a login-flow fetch failure. -/
abbrev FetchError := String

/-- The `HttpError` shapes `build_client` distinguishes: `Reqwest(_)`
    (a low-level transport failure) versus every other HTTP error. -/
inductive HttpError where
  | reqwest (cause : Nat)
  | otherHttp (cause : Nat)
deriving DecidableEq, Repr

/-- ruma's `FromHttpResponseError`: a deserialization failure of the
    well-known file, or a server-side response error. -/
inductive FromHttpResponseError where
  | deserialization (e : DeserializationError)
  | server (cause : Nat)
deriving DecidableEq, Repr

/-- The `ClientBuildError` shapes matched in `build_client`:
    `Http(e)`, `AutoDiscovery(e)`, and the wildcard for every other
    client-build failure. -/
inductive ClientBuildError where
  | http (e : HttpError)
  | autoDiscovery (e : FromHttpResponseError)
  | other (cause : String)
deriving DecidableEq, Repr

/-- The cause boxed inside `AuthenticationError::Generic(Box<dyn Error>)`.
    The three distinct sources in the file: the initial fallback string
    "Unknown error occurred.", a boxed `ClientBuildError`, and a boxed
    login-flow fetch error. -/
inductive GenericCause where
  | unknownError
  | clientBuild (e : ClientBuildError)
  | loginTypesFetch (e : FetchError)
deriving DecidableEq, Repr

/-- The `AuthenticationError` taxonomy, translated variant by variant. -/
inductive AuthenticationError where
  | clientMissing
  | invalidServerName (e : IdParseError)
  | serverNotFound
  | homeserverNotFound
  | invalidWellKnownFile (e : DeserializationError)
  | slidingSyncNotAvailable
  | invalidBasePath
  | generic (cause : GenericCause)
deriving DecidableEq, Repr

/-- ruma's `LoginType`; `Password(_)` carries data matched by a wildcard. -/
inductive LoginType where
  | password (data : Nat)
  | sso
  | token
  | custom (name : String)
deriving DecidableEq, Repr

/-- `HomeserverLoginDetails`: url, OIDC support flag (feature-gated in the
    source, unconditional here), password-login support flag. -/
structure HomeserverLoginDetails where
  url : Url
  supports_oidc_login : Bool
  supports_password_login : Bool
deriving DecidableEq, Repr

/-- Oracle bundle for the external collaborators of the service: the
    server-name sanitizer, the URL parser, the two client-build paths of the
    transport library, and the per-client queries (`server_versions`,
    `get_login_types`, `homeserver`, `sliding_sync_proxy`, OIDC metadata). -/
structure Env where
  sanitize_server_name : String → Except IdParseError ServerName
  url_parse : String → Option Url
  build_for_server_name : ServerName → Bool → Except ClientBuildError Client
  build_for_url : Url → Except ClientBuildError Client
  server_versions_ok : Client → Bool
  get_login_types : Client → Except FetchError (List LoginType)
  homeserver : Client → Url
  sliding_sync_proxy : Client → Option Url
  oidc_auth_server_info : Client → Bool

/-- The mutable state of an `AuthenticationService` instance: the user agent
    (immutable after construction), the two `RwLock<Option<_>>` fields, and
    the sliding-sync proxy override. -/
structure ServiceState where
  user_agent : Option String
  client : Option Client
  homeserver_details : Option HomeserverLoginDetails
  custom_sliding_sync_proxy : Option String
deriving DecidableEq, Repr

namespace AuthenticationService

/-- `AuthenticationService::new`: both locked fields start as `None`. -/
def new (user_agent : Option String) (custom_sliding_sync_proxy : Option String) :
    ServiceState :=
  { user_agent := user_agent
    client := none
    homeserver_details := none
    custom_sliding_sync_proxy := custom_sliding_sync_proxy }

/-- `AuthenticationService::homeserver_details`: reads the details lock. -/
def homeserver_details (st : ServiceState) : Option HomeserverLoginDetails :=
  st.homeserver_details

/-- `build_client_for_homeserver_url`: builds a client for the URL and
    probes `server_versions`; any failure yields `None`. -/
def build_client_for_homeserver_url (env : Env) (homeserver_url : Url) :
    Option Client :=
  match env.build_for_url homeserver_url with
  | .error _ => none
  | .ok client => if env.server_versions_ok client then some client else none

/-- The error translation performed in the `Err` arm of the server-name
    strategy in `build_client` (lines 154-165 of the source). -/
def mapBuildError : ClientBuildError → AuthenticationError
  | .http (.reqwest _) => .serverNotFound
  | .autoDiscovery (.deserialization e) => .invalidWellKnownFile e
  | .autoDiscovery _ => .homeserverNotFound
  | e => .generic (.clientBuild e)

/-- The URL-strategy block of `build_client` (lines 172-179): if the input
    parses as a URL, try `build_client_for_homeserver_url`. -/
def urlStrategy (env : Env) (input : String) : Option Client :=
  match env.url_parse input with
  | some homeserver_url => build_client_for_homeserver_url env homeserver_url
  | none => none

/-- `build_client`: server-name strategy first (with the plaintext flag when
    the input starts with "http://"), then the URL strategy, then the final
    error selection: `InvalidServerName` when sanitizing failed, otherwise
    the accumulated `build_error`. -/
def build_client (env : Env) (input : String) : Except AuthenticationError Client :=
  let sanitize_result := env.sanitize_server_name input
  let strategy1 : Option Client × AuthenticationError :=
    match sanitize_result with
    | .ok server_name =>
      let insecure := input.startsWith "http://"
      match env.build_for_server_name server_name insecure with
      | .ok client => (some client, .generic .unknownError)
      | .error e => (none, mapBuildError e)
    | .error _ => (none, .generic .unknownError)
  match strategy1 with
  | (some client, _) => .ok client
  | (none, build_error) =>
    match urlStrategy env input with
    | some client => .ok client
    | none =>
      match sanitize_result with
      | .error e => .error (.invalidServerName e)
      | .ok _ => .error build_error

/-- `details_from_client`: OIDC metadata is a local inspection; the
    login-flow fetch may fail and maps to `Generic`; password support is an
    `any` over the flows matching the `Password(_)` variant. -/
def details_from_client (env : Env) (client : Client) :
    Except AuthenticationError HomeserverLoginDetails :=
  let supports_oidc_login := env.oidc_auth_server_info client
  match env.get_login_types client with
  | .error e => .error (.generic (.loginTypesFetch e))
  | .ok flows =>
    let supports_password_login :=
      flows.any fun login_type =>
        match login_type with
        | .password _ => true
        | _ => false
    let url := env.homeserver client
    .ok { url := url
          supports_oidc_login := supports_oidc_login
          supports_password_login := supports_password_login }

/-- The first of the two commit writes (line 131): `*self.client.write() =
    Some(client)`. A separate lock acquisition from the second write. -/
def commitWriteClient (client : Client) (st : ServiceState) : ServiceState :=
  { st with client := some client }

/-- The second commit write (line 132): `*self.homeserver_details.write() =
    Some(details)`. -/
def commitWriteDetails (details : HomeserverLoginDetails) (st : ServiceState) :
    ServiceState :=
  { st with homeserver_details := some details }

/-- What a reader holding both locks momentarily would observe: the pair of
    the two independently locked fields. -/
def readPair (st : ServiceState) : Option Client × Option HomeserverLoginDetails :=
  (st.client, st.homeserver_details)

/-- `configure_homeserver`: build a client, probe its details, apply the
    sliding-sync proxy gate (feature flag modelled as the
    `slidingSyncEnabled` argument), then commit via the two sequential
    writes. Returns the new state paired with the call result. -/
def configure_homeserver (env : Env) (slidingSyncEnabled : Bool)
    (st : ServiceState) (server_name_or_homeserver_url : String) :
    ServiceState × Except AuthenticationError Unit :=
  match build_client env server_name_or_homeserver_url with
  | .error e => (st, .error e)
  | .ok client =>
    match details_from_client env client with
    | .error e => (st, .error e)
    | .ok details =>
      if slidingSyncEnabled && st.custom_sliding_sync_proxy.isNone
          && (env.sliding_sync_proxy client).isNone then
        (st, .error .slidingSyncNotAvailable)
      else
        (commitWriteDetails details (commitWriteClient client st), .ok ())

/-- Runs a sequence of `configure_homeserver` calls, threading the state. -/
def runCalls : ServiceState → List (Env × Bool × String) → ServiceState
  | st, [] => st
  | st, (env, flag, input) :: rest =>
    runCalls (configure_homeserver env flag st input).1 rest

/-- True when every call in the sequence returns an error. -/
def allFailed : ServiceState → List (Env × Bool × String) → Bool
  | _, [] => true
  | st, (env, flag, input) :: rest =>
    match configure_homeserver env flag st input with
    | (st2, .error _) => allFailed st2 rest
    | (_, .ok _) => false

end AuthenticationService

/-! ## The one-shot iterator serializer -/

/-- Oracle for the serde `Serializer` the wrapper is handed: whether
    `serialize_seq` succeeds, which elements serialize, and whether the final
    `end` succeeds. -/
structure SerializerModel (I : Type) where
  serialize_seq_ok : Bool
  serialize_element_ok : I → Bool
  seq_end_ok : Bool

/-- Outcome of one `serialize` call on the wrapper: a returned `Ok`, a
    returned `Err`, or an abort via `expect` (panic). -/
inductive SerializeOutcome where
  | ok
  | error
  | panicked
deriving DecidableEq, Repr

namespace IteratorSerializeAsArray

/-- `IteratorSerializeAsArray::new`: the `Cell` holds `Some(iterator)`;
    the iterator is modelled as the list of elements it will yield. -/
def new {I : Type} (iterator : List I) : Option (List I) :=
  some iterator

/-- `Serialize::serialize`: `self.0.take()` empties the cell and `expect`s a
    value (panicking on the second call); then `serialize_seq(None)?`, each
    element via `serialize_element(&e)?`, and `seq.end()`. Returns the
    outcome and the cell content after the call. -/
def serialize {I : Type} (S : SerializerModel I) (self : Option (List I)) :
    SerializeOutcome × Option (List I) :=
  match self with
  | none => (.panicked, none)
  | some iterator =>
    if !S.serialize_seq_ok then (.error, none)
    else if iterator.all S.serialize_element_ok then
      (if S.seq_end_ok then (.ok, none) else (.error, none))
    else (.error, none)

end IteratorSerializeAsArray

/-! ## Concrete oracle environments used to witness the theorems -/

open AuthenticationService

/-- Environment where the input neither sanitizes as a server name nor
    parses as a URL. -/
def envParseFail : Env :=
  { sanitize_server_name := fun _ => .error "not a server name"
    url_parse := fun _ => none
    build_for_server_name := fun _ _ => .error (.other "unused")
    build_for_url := fun _ => .error (.other "unused")
    server_versions_ok := fun _ => false
    get_login_types := fun _ => .error "unused"
    homeserver := fun _ => ""
    sliding_sync_proxy := fun _ => none
    oidc_auth_server_info := fun _ => false }

/-- Environment where the input is a valid server name whose discovery fails
    with a transport error, and also parses as a URL whose liveness probe
    fails. -/
def envNameFailUrlProbeFail : Env :=
  { sanitize_server_name := fun s => .ok s
    url_parse := fun s => some s
    build_for_server_name := fun _ _ => .error (.http (.reqwest 0))
    build_for_url := fun _ => .ok 7
    server_versions_ok := fun _ => false
    get_login_types := fun _ => .error "unused"
    homeserver := fun _ => ""
    sliding_sync_proxy := fun _ => none
    oidc_auth_server_info := fun _ => false }

/-! ## Theorems -/

/-- Helper: `mapBuildError` never produces the initial fallback error. -/
lemma mapBuildError_ne_unknown (e : ClientBuildError) :
    mapBuildError e ≠ .generic .unknownError := by
  cases e with
  | http he => cases he <;> simp [mapBuildError]
  | autoDiscovery ae => cases ae <;> simp [mapBuildError]
  | other s => simp [mapBuildError]

/-- Helper: the only error shapes `build_client` can return: an
    `InvalidServerName` carrying the sanitize cause, or the mapped
    server-name-strategy error. -/
lemma build_client_error_shape (env : Env) (input : String)
    (err : AuthenticationError) (h : build_client env input = .error err) :
    (∃ e, env.sanitize_server_name input = .error e ∧
      urlStrategy env input = none ∧
      err = .invalidServerName e) ∨
    (∃ sn e, env.sanitize_server_name input = .ok sn ∧
      env.build_for_server_name sn (input.startsWith "http://") = .error e ∧
      urlStrategy env input = none ∧
      err = mapBuildError e) := by
  unfold build_client at h
  cases hs : env.sanitize_server_name input with
  | error e =>
    rw [hs] at h
    simp only at h
    cases hu : urlStrategy env input with
    | some c => rw [hu] at h; simp at h
    | none =>
      rw [hu] at h
      simp only [Except.error.injEq] at h
      exact Or.inl ⟨e, rfl, rfl, h.symm⟩
  | ok sn =>
    rw [hs] at h
    simp only at h
    cases hb : env.build_for_server_name sn (input.startsWith "http://") with
    | ok c => rw [hb] at h; simp at h
    | error e =>
      rw [hb] at h
      simp only at h
      cases hu : urlStrategy env input with
      | some c => rw [hu] at h; simp at h
      | none =>
        rw [hu] at h
        simp only [Except.error.injEq] at h
        exact Or.inr ⟨sn, e, rfl, hb, rfl, h.symm⟩

/-- C5: an input failing both server-name parsing and URL parsing makes
    `configure_homeserver` return `InvalidServerName` with the server-name
    parse cause, leaving the state unchanged. -/
theorem C5_invalid_server_name (env : Env) (flag : Bool) (st : ServiceState)
    (input : String) (e : IdParseError)
    (h1 : env.sanitize_server_name input = .error e)
    (h2 : env.url_parse input = none) :
    configure_homeserver env flag st input =
      (st, .error (.invalidServerName e)) := by
  have hb : build_client env input = .error (.invalidServerName e) := by
    simp [build_client, urlStrategy, h1, h2]
  simp [configure_homeserver, hb]

/-- Witness for C5 at a concrete environment and input. -/
theorem C5_invalid_server_name_witness :
    envParseFail.sanitize_server_name "x" = .error "not a server name" ∧
    envParseFail.url_parse "x" = none ∧
    configure_homeserver envParseFail false (new none none) "x" =
      (new none none, .error (.invalidServerName "not a server name")) :=
  ⟨rfl, rfl, C5_invalid_server_name envParseFail false (new none none) "x"
    "not a server name" rfl rfl⟩

/-- C1: when the server-name strategy was attempted and failed, and the
    input also parses as a URL whose probe fails, the returned error is the
    one produced by the server-name strategy; the URL strategy's failure is
    discarded. -/
theorem C1_url_failure_discarded (env : Env) (flag : Bool) (st : ServiceState)
    (input : String) (sn : ServerName) (e : ClientBuildError) (u : Url)
    (h1 : env.sanitize_server_name input = .ok sn)
    (h2 : env.build_for_server_name sn (input.startsWith "http://") = .error e)
    (h3 : env.url_parse input = some u)
    (h4 : build_client_for_homeserver_url env u = none) :
    build_client env input = .error (mapBuildError e) ∧
    (configure_homeserver env flag st input).2 = .error (mapBuildError e) := by
  have hb : build_client env input = .error (mapBuildError e) := by
    simp [build_client, urlStrategy, h1, h2, h3, h4]
  exact ⟨hb, by simp [configure_homeserver, hb]⟩

/-- Witness for C1 at a concrete environment: discovery fails with a
    transport error, the URL probe also fails, and the transport error
    (mapped to `ServerNotFound`) is what is returned. -/
theorem C1_url_failure_discarded_witness :
    envNameFailUrlProbeFail.sanitize_server_name "example.org" = .ok "example.org" ∧
    envNameFailUrlProbeFail.build_for_server_name "example.org"
      ("example.org".startsWith "http://") = .error (.http (.reqwest 0)) ∧
    envNameFailUrlProbeFail.url_parse "example.org" = some "example.org" ∧
    build_client_for_homeserver_url envNameFailUrlProbeFail "example.org" = none ∧
    (configure_homeserver envNameFailUrlProbeFail false (new none none)
      "example.org").2 = .error .serverNotFound :=
  ⟨rfl, rfl, rfl, rfl,
    (C1_url_failure_discarded envNameFailUrlProbeFail false (new none none)
      "example.org" "example.org" (.http (.reqwest 0)) "example.org"
      rfl rfl rfl rfl).2⟩

/-- C10: neither `build_client` nor `configure_homeserver` ever returns the
    initial fallback error `Generic("Unknown error occurred.")`; the
    default-error branch is unreachable at the public interface. -/
theorem C10_fallback_error_unreachable (env : Env) (flag : Bool)
    (st : ServiceState) (input : String) :
    build_client env input ≠ .error (.generic .unknownError) ∧
    (configure_homeserver env flag st input).2 ≠
      .error (.generic .unknownError) := by
  have hbc : build_client env input ≠ .error (.generic .unknownError) := by
    intro h
    rcases build_client_error_shape env input _ h with
      ⟨e, _, _, he⟩ | ⟨sn, e, _, _, _, he⟩
    · exact absurd he (by simp)
    · exact absurd he.symm (mapBuildError_ne_unknown e)
  refine ⟨hbc, ?_⟩
  intro h
  unfold configure_homeserver at h
  cases hb : build_client env input with
  | error e =>
    rw [hb] at h
    simp only [Except.error.injEq] at h
    exact hbc (h ▸ hb)
  | ok client =>
    rw [hb] at h
    dsimp only at h
    cases hd : details_from_client env client with
    | error e =>
      rw [hd] at h
      have : e = .generic .unknownError := by simpa using h
      subst this
      unfold details_from_client at hd
      cases hg : env.get_login_types client with
      | error fe => rw [hg] at hd; simp at hd
      | ok flows => rw [hg] at hd; simp at hd
    | ok details =>
      rw [hd] at h
      dsimp only at h
      by_cases hc : (flag && st.custom_sliding_sync_proxy.isNone
          && (env.sliding_sync_proxy client).isNone) = true
      · rw [if_pos hc] at h
        simp at h
      · rw [if_neg hc] at h
        simp at h

/-- Helper: every `configure_homeserver` call either fails leaving the
    state untouched, or succeeds and commits via the two sequential field
    writes. -/
lemma configure_cases (env : Env) (flag : Bool) (st : ServiceState)
    (input : String) :
    (∃ e, configure_homeserver env flag st input = (st, .error e)) ∨
    (∃ client details, build_client env input = .ok client ∧
      details_from_client env client = .ok details ∧
      configure_homeserver env flag st input =
        (commitWriteDetails details (commitWriteClient client st), .ok ())) := by
  unfold configure_homeserver
  cases hb : build_client env input with
  | error e => exact Or.inl ⟨e, rfl⟩
  | ok client =>
    dsimp only
    cases hd : details_from_client env client with
    | error e => exact Or.inl ⟨e, rfl⟩
    | ok details =>
      dsimp only
      by_cases hc : (flag && st.custom_sliding_sync_proxy.isNone
          && (env.sliding_sync_proxy client).isNone) = true
      · exact Or.inl ⟨.slidingSyncNotAvailable, by rw [if_pos hc]⟩
      · exact Or.inr ⟨client, details, rfl, hd, by rw [if_neg hc]⟩

/-- Helper: a `configure_homeserver` call that returns an error leaves the
    state exactly as it was. -/
lemma configure_error_state_eq (env : Env) (flag : Bool) (st : ServiceState)
    (input : String) (e : AuthenticationError)
    (h : (configure_homeserver env flag st input).2 = .error e) :
    (configure_homeserver env flag st input).1 = st := by
  rcases configure_cases env flag st input with ⟨e2, heq⟩ | ⟨c, d, _, _, heq⟩
  · rw [heq]
  · rw [heq] at h
    simp at h

/-- Helper: a sequence of failing calls never moves the state. -/
lemma runCalls_allFailed_eq (calls : List (Env × Bool × String)) :
    ∀ st : ServiceState, allFailed st calls = true → runCalls st calls = st := by
  induction calls with
  | nil => intro st _; rfl
  | cons c rest ih =>
    obtain ⟨env, flag, input⟩ := c
    intro st h
    unfold allFailed at h
    unfold runCalls
    rcases configure_cases env flag st input with ⟨e, heq⟩ | ⟨cl, d, _, _, heq⟩
    · rw [heq] at h ⊢
      dsimp only at h ⊢
      exact ih st h
    · rw [heq] at h
      simp at h

/-- C2: before any successful call `homeserver_details` is `None` (it starts
    as `None` and stays `None` across any sequence of failing calls), and a
    failing call of any kind leaves the stored client and the stored details
    exactly as they were — no partial commit. -/
theorem C2_no_partial_commit (ua proxy : Option String) (env : Env)
    (flag : Bool) (st : ServiceState) (input : String)
    (calls : List (Env × Bool × String)) :
    homeserver_details (new ua proxy) = none ∧
    (allFailed (new ua proxy) calls = true →
      homeserver_details (runCalls (new ua proxy) calls) = none) ∧
    (∀ e, (configure_homeserver env flag st input).2 = .error e →
      (configure_homeserver env flag st input).1 = st) := by
  refine ⟨rfl, ?_, ?_⟩
  · intro h
    rw [runCalls_allFailed_eq calls (new ua proxy) h]
    rfl
  · intro e h
    exact configure_error_state_eq env flag st input e h

/-- Witness for C2: one concrete failing call from the initial state. -/
theorem C2_no_partial_commit_witness :
    homeserver_details (new none none) = none ∧
    allFailed (new none none) [(envParseFail, false, "x")] = true ∧
    homeserver_details
      (runCalls (new none none) [(envParseFail, false, "x")]) = none ∧
    (configure_homeserver envParseFail false (new none none) "x").1 =
      new none none :=
  ⟨(C2_no_partial_commit none none envParseFail false (new none none) "x"
      [(envParseFail, false, "x")]).1,
   rfl,
   (C2_no_partial_commit none none envParseFail false (new none none) "x"
      [(envParseFail, false, "x")]).2.1 rfl,
   (C2_no_partial_commit none none envParseFail false (new none none) "x"
      [(envParseFail, false, "x")]).2.2
     (.invalidServerName "not a server name") rfl⟩

/-- Environment where server-name discovery fully succeeds: it yields client
    7, the flows include a password flow, and a sliding-sync proxy is
    advertised. -/
def envSuccessW : Env :=
  { sanitize_server_name := fun s => .ok s
    url_parse := fun _ => none
    build_for_server_name := fun _ _ => .ok 7
    build_for_url := fun _ => .error (.other "unused")
    server_versions_ok := fun _ => true
    get_login_types := fun _ => .ok [.password 0]
    homeserver := fun _ => "https://example.org"
    sliding_sync_proxy := fun _ => some "https://proxy.example.org"
    oidc_auth_server_info := fun _ => false }

/-- The login details `envSuccessW` produces for client 7. -/
def detailsW : HomeserverLoginDetails :=
  { url := "https://example.org"
    supports_oidc_login := false
    supports_password_login := true }

/-- C3 counterexample: a successful `configure_homeserver` commits through
    two sequential single-field writes; the state between the two writes
    (after the client lock write, before the details lock write) pairs the
    newly committed client with the details of the previous state, which is
    neither the old pair nor the new pair — a reader interleaved between the
    two writes observes a mixture of two commits. -/
theorem C3_torn_read_counterexample :
    (configure_homeserver envSuccessW false (new none none) "example.org").2 =
      .ok () ∧
    (configure_homeserver envSuccessW false (new none none) "example.org").1 =
      commitWriteDetails detailsW (commitWriteClient 7 (new none none)) ∧
    ¬ (readPair (commitWriteClient 7 (new none none)) =
         readPair (new none none) ∨
       readPair (commitWriteClient 7 (new none none)) =
         (some 7, some detailsW)) := by
  refine ⟨rfl, rfl, ?_⟩
  intro h
  rcases h with h | h <;> simp [readPair, commitWriteClient, new] at h

/-- C3 amended: the commit is two successive single-field writes; a reader
    observing the store strictly before the first write sees the old pair,
    one observing strictly after the second write sees exactly the committed
    pair, but the intermediate state pairs the new client with the old
    details. -/
theorem C3_commit_boundaries (env : Env) (flag : Bool) (st : ServiceState)
    (input : String)
    (h : (configure_homeserver env flag st input).2 = .ok ()) :
    ∃ client details,
      (configure_homeserver env flag st input).1 =
        commitWriteDetails details (commitWriteClient client st) ∧
      readPair (configure_homeserver env flag st input).1 =
        (some client, some details) ∧
      readPair (commitWriteClient client st) =
        (some client, st.homeserver_details) := by
  rcases configure_cases env flag st input with ⟨e, heq⟩ | ⟨client, details, _, _, heq⟩
  · rw [heq] at h
    simp at h
  · refine ⟨client, details, by rw [heq], ?_, rfl⟩
    rw [heq]
    rfl

/-- Witness for the amended C3 at a concrete successful call. -/
theorem C3_commit_boundaries_witness :
    (configure_homeserver envSuccessW false (new none none) "example.org").2 =
      .ok () ∧
    ∃ client details,
      (configure_homeserver envSuccessW false (new none none) "example.org").1 =
        commitWriteDetails details (commitWriteClient client (new none none)) ∧
      readPair (configure_homeserver envSuccessW false (new none none)
        "example.org").1 = (some client, some details) ∧
      readPair (commitWriteClient client (new none none)) =
        (some client, (new none none).homeserver_details) :=
  ⟨rfl, C3_commit_boundaries envSuccessW false (new none none) "example.org" rfl⟩

/-- Helper: `mapBuildError` never produces `InvalidServerName`. -/
lemma mapBuildError_ne_invalidServerName (e : ClientBuildError)
    (x : IdParseError) : mapBuildError e ≠ .invalidServerName x := by
  cases e with
  | http he => cases he <;> simp [mapBuildError]
  | autoDiscovery ae => cases ae <;> simp [mapBuildError]
  | other s => simp [mapBuildError]

/-- Environment where the input is not a valid server name but does parse
    as a URL, and the URL probe (`server_versions`) fails. -/
def envInvalidNameUrlProbeFail : Env :=
  { sanitize_server_name := fun _ => .error "invalid server name"
    url_parse := fun s => some s
    build_for_server_name := fun _ _ => .error (.other "unused")
    build_for_url := fun _ => .ok 3
    server_versions_ok := fun _ => false
    get_login_types := fun _ => .error "unused"
    homeserver := fun _ => ""
    sliding_sync_proxy := fun _ => none
    oidc_auth_server_info := fun _ => false }

/-- C4 counterexample: for an input that is not a valid server name but
    parses as a URL whose probe fails, the code returns
    `InvalidServerName` (carrying the parse cause), not the fallback
    `Generic` error the claim announces. -/
theorem C4_counterexample :
    envInvalidNameUrlProbeFail.sanitize_server_name "https://x.example" =
      .error "invalid server name" ∧
    envInvalidNameUrlProbeFail.url_parse "https://x.example" =
      some "https://x.example" ∧
    build_client_for_homeserver_url envInvalidNameUrlProbeFail
      "https://x.example" = none ∧
    build_client envInvalidNameUrlProbeFail "https://x.example" =
      .error (.invalidServerName "invalid server name") ∧
    build_client envInvalidNameUrlProbeFail "https://x.example" ≠
      .error (.generic .unknownError) := by
  refine ⟨rfl, rfl, rfl, rfl, ?_⟩
  intro hcontra
  have hval : build_client envInvalidNameUrlProbeFail "https://x.example" =
      .error (.invalidServerName "invalid server name") := rfl
  rw [hval] at hcontra
  simp at hcontra

/-- C4 amended: `build_client` (and thus `configure_homeserver`) returns
    `InvalidServerName` exactly for the inputs whose server-name parsing
    fails and whose URL strategy does not produce a verified client —
    whether URL parsing failed or the URL probe failed; in the latter case
    the result is still `InvalidServerName` with the parse cause, never the
    fallback error. -/
theorem C4_invalid_server_name_exact (env : Env) (input : String) :
    (∀ e, env.sanitize_server_name input = .error e →
      urlStrategy env input = none →
      build_client env input = .error (.invalidServerName e)) ∧
    (∀ e, build_client env input = .error (.invalidServerName e) →
      env.sanitize_server_name input = .error e ∧
      urlStrategy env input = none) := by
  constructor
  · intro e h1 h2
    simp [build_client, h1, h2]
  · intro e h
    rcases build_client_error_shape env input _ h with
      ⟨e2, hs, hu, he⟩ | ⟨sn, e2, hs, hb, hu, he⟩
    · have : e2 = e := by
        have := he.symm
        simpa [AuthenticationError.invalidServerName.injEq] using this
      subst this
      exact ⟨hs, hu⟩
    · exact absurd he.symm (mapBuildError_ne_invalidServerName e2 e)

/-- Witness for the amended C4: the probe-fails case yields
    `InvalidServerName`, and conversely the returned `InvalidServerName`
    certifies the failed sanitize and empty URL strategy. -/
theorem C4_invalid_server_name_exact_witness :
    build_client envParseFail "x" =
      .error (.invalidServerName "not a server name") ∧
    envParseFail.sanitize_server_name "x" = .error "not a server name" ∧
    urlStrategy envParseFail "x" = none :=
  ⟨(C4_invalid_server_name_exact envParseFail "x").1 "not a server name" rfl rfl,
   ((C4_invalid_server_name_exact envParseFail "x").2 "not a server name"
      ((C4_invalid_server_name_exact envParseFail "x").1 "not a server name"
        rfl rfl)).1,
   ((C4_invalid_server_name_exact envParseFail "x").2 "not a server name"
      ((C4_invalid_server_name_exact envParseFail "x").1 "not a server name"
        rfl rfl)).2⟩

/-- Environment where discovery fails with a malformed well-known file and
    the input does not parse as a URL. -/
def envBadWellKnown : Env :=
  { sanitize_server_name := fun s => .ok s
    url_parse := fun _ => none
    build_for_server_name := fun _ _ =>
      .error (.autoDiscovery (.deserialization "bad json"))
    build_for_url := fun _ => .error (.other "unused")
    server_versions_ok := fun _ => false
    get_login_types := fun _ => .error "unused"
    homeserver := fun _ => ""
    sliding_sync_proxy := fun _ => none
    oidc_auth_server_info := fun _ => false }

/-- C6: when the server-name strategy fails (and no URL fallback succeeds),
    the returned error is the single taxonomy value determined by the
    transport error's shape: Reqwest HTTP errors map to `ServerNotFound`,
    auto-discovery deserialization failures to `InvalidWellKnownFile` with
    the cause, every other auto-discovery failure to `HomeserverNotFound`,
    and everything else to `Generic` with the boxed cause. -/
theorem C6_error_taxonomy_mapping (env : Env) (flag : Bool)
    (st : ServiceState) (input : String) (sn : ServerName)
    (e : ClientBuildError)
    (h1 : env.sanitize_server_name input = .ok sn)
    (h2 : env.build_for_server_name sn (input.startsWith "http://") = .error e)
    (h3 : urlStrategy env input = none) :
    (configure_homeserver env flag st input).2 = .error (mapBuildError e) ∧
    (∀ c, mapBuildError (.http (.reqwest c)) = .serverNotFound) ∧
    (∀ de, mapBuildError (.autoDiscovery (.deserialization de)) =
      .invalidWellKnownFile de) ∧
    (∀ c, mapBuildError (.autoDiscovery (.server c)) = .homeserverNotFound) ∧
    (∀ c, mapBuildError (.http (.otherHttp c)) =
      .generic (.clientBuild (.http (.otherHttp c)))) ∧
    (∀ s2, mapBuildError (.other s2) = .generic (.clientBuild (.other s2))) := by
  have hb : build_client env input = .error (mapBuildError e) := by
    simp [build_client, h1, h2, h3]
  have hc : (configure_homeserver env flag st input).2 =
      .error (mapBuildError e) := by
    simp [configure_homeserver, hb]
  exact ⟨hc, fun c => rfl, fun de => rfl, fun c => rfl, fun c => rfl,
    fun s2 => rfl⟩

/-- Witness for C6: a malformed well-known file surfaces as
    `InvalidWellKnownFile` with its deserialization cause. -/
theorem C6_error_taxonomy_mapping_witness :
    envBadWellKnown.sanitize_server_name "example.org" = .ok "example.org" ∧
    envBadWellKnown.build_for_server_name "example.org"
      ("example.org".startsWith "http://") =
      .error (.autoDiscovery (.deserialization "bad json")) ∧
    urlStrategy envBadWellKnown "example.org" = none ∧
    (configure_homeserver envBadWellKnown false (new none none)
      "example.org").2 = .error (.invalidWellKnownFile "bad json") :=
  ⟨rfl, rfl, rfl,
    (C6_error_taxonomy_mapping envBadWellKnown false (new none none)
      "example.org" "example.org" (.autoDiscovery (.deserialization "bad json"))
      rfl rfl rfl).1⟩

/-- Environment where discovery and the capability probe succeed but
    neither a proxy override nor a discovered sliding-sync proxy exists. -/
def envNoProxy : Env :=
  { sanitize_server_name := fun s => .ok s
    url_parse := fun _ => none
    build_for_server_name := fun _ _ => .ok 9
    build_for_url := fun _ => .error (.other "unused")
    server_versions_ok := fun _ => true
    get_login_types := fun _ => .ok [.sso]
    homeserver := fun _ => "https://hs.example"
    sliding_sync_proxy := fun _ => none
    oidc_auth_server_info := fun _ => true }

/-- C7: with the sliding-sync capability enabled, if discovery and probe
    succeed but neither the operator override nor the discovered proxy is
    present, the call fails with `SlidingSyncNotAvailable` and the state is
    returned entirely unchanged. -/
theorem C7_sliding_sync_gate (env : Env) (st : ServiceState) (input : String)
    (client : Client) (details : HomeserverLoginDetails)
    (h1 : build_client env input = .ok client)
    (h2 : details_from_client env client = .ok details)
    (h3 : st.custom_sliding_sync_proxy = none)
    (h4 : env.sliding_sync_proxy client = none) :
    configure_homeserver env true st input =
      (st, .error .slidingSyncNotAvailable) := by
  simp [configure_homeserver, h1, h2, h3, h4]

/-- Witness for C7: a fully successful discovery with no proxy anywhere is
    rejected by the gate, preserving the (initial) state. -/
theorem C7_sliding_sync_gate_witness :
    build_client envNoProxy "example.org" = .ok 9 ∧
    details_from_client envNoProxy 9 =
      .ok { url := "https://hs.example", supports_oidc_login := true,
            supports_password_login := false } ∧
    (new none none).custom_sliding_sync_proxy = none ∧
    envNoProxy.sliding_sync_proxy 9 = none ∧
    configure_homeserver envNoProxy true (new none none) "example.org" =
      (new none none, .error .slidingSyncNotAvailable) :=
  ⟨rfl, rfl, rfl, rfl,
    C7_sliding_sync_gate envNoProxy (new none none) "example.org" 9
      { url := "https://hs.example", supports_oidc_login := true,
        supports_password_login := false } rfl rfl rfl rfl⟩

/-- C8: for a successfully fetched flow list, `supports_password_login` is
    true exactly when some flow is the password variant; an empty list or a
    list without a password flow yields false. -/
theorem C8_password_flow_detection (env : Env) (client : Client)
    (flows : List LoginType)
    (h : env.get_login_types client = .ok flows) :
    ∃ d, details_from_client env client = .ok d ∧
      (d.supports_password_login = true ↔
        ∃ lt ∈ flows, ∃ n, lt = LoginType.password n) ∧
      (flows = [] → d.supports_password_login = false) ∧
      ((∀ lt ∈ flows, ∀ n, lt ≠ LoginType.password n) →
        d.supports_password_login = false) := by
  refine ⟨{ url := env.homeserver client
            supports_oidc_login := env.oidc_auth_server_info client
            supports_password_login := flows.any fun login_type =>
              match login_type with
              | .password _ => true
              | _ => false },
          ?_, ?_, ?_, ?_⟩
  · simp [details_from_client, h]
  · rw [List.any_eq_true]
    constructor
    · rintro ⟨lt, hmem, hp⟩
      cases lt with
      | password n => exact ⟨.password n, hmem, n, rfl⟩
      | sso => simp at hp
      | token => simp at hp
      | custom s => simp at hp
    · rintro ⟨lt, hmem, n, rfl⟩
      exact ⟨.password n, hmem, rfl⟩
  · rintro rfl
    rfl
  · intro hnone
    rw [Bool.eq_false_iff]
    intro hany
    rw [List.any_eq_true] at hany
    obtain ⟨lt, hmem, hp⟩ := hany
    cases lt with
    | password n => exact hnone (.password n) hmem n rfl
    | sso => simp at hp
    | token => simp at hp
    | custom s => simp at hp

/-- Witness for C8 with a flow list containing a password flow. -/
theorem C8_password_flow_detection_witness :
    envSuccessW.get_login_types 7 = .ok [.password 0] ∧
    (∃ d, details_from_client envSuccessW 7 = .ok d ∧
      (d.supports_password_login = true ↔
        ∃ lt ∈ [LoginType.password 0], ∃ n, lt = LoginType.password n) ∧
      ([LoginType.password 0] = [] → d.supports_password_login = false) ∧
      ((∀ lt ∈ [LoginType.password 0], ∀ n, lt ≠ LoginType.password n) →
        d.supports_password_login = false)) :=
  ⟨rfl, C8_password_flow_detection envSuccessW 7 [.password 0] rfl⟩

/-- C9: the first `serialize` on a fresh `IteratorSerializeAsArray` never
    panics and always consumes the wrapped iterator (the cell is left
    empty whether the serialization succeeded or failed), so a second
    `serialize` on the same instance always panics. -/
theorem C9_second_serialize_panics {I : Type} (S : SerializerModel I)
    (iterator : List I) :
    (IteratorSerializeAsArray.serialize S
      (IteratorSerializeAsArray.new iterator)).1 ≠ .panicked ∧
    (IteratorSerializeAsArray.serialize S
      (IteratorSerializeAsArray.new iterator)).2 = none ∧
    (IteratorSerializeAsArray.serialize S
      (IteratorSerializeAsArray.serialize S
        (IteratorSerializeAsArray.new iterator)).2).1 = .panicked := by
  have hsnd : (IteratorSerializeAsArray.serialize S
      (IteratorSerializeAsArray.new iterator)).2 = none := by
    unfold IteratorSerializeAsArray.serialize IteratorSerializeAsArray.new
    dsimp only
    by_cases h1 : S.serialize_seq_ok
    · by_cases h2 : iterator.all S.serialize_element_ok
      · by_cases h3 : S.seq_end_ok <;> simp [h1, h2, h3]
      · simp [h1, h2]
    · simp [h1]
  refine ⟨?_, hsnd, ?_⟩
  · unfold IteratorSerializeAsArray.serialize IteratorSerializeAsArray.new
    dsimp only
    by_cases h1 : S.serialize_seq_ok
    · by_cases h2 : iterator.all S.serialize_element_ok
      · by_cases h3 : S.seq_end_ok <;> simp [h1, h2, h3]
      · simp [h1, h2]
    · simp [h1]
  · rw [hsnd]
    rfl





